import Mathlib

/-!
Shallow embedding of the ml-service-wrapper core: the error taxonomy
(`errors.py`), the configuration context source and the service lifecycle
wrapper (`server.py`), and the context-source chain whose module is not among
the provided sources and is therefore modelled from the specification.
-/

/-- Python truthiness coalescing `x or y` for an optional string `x` and a
string `y`: both `None` and the empty string are falsy, so both fall through
to `y`. -/
def pyStrOr (x : Option String) (y : String) : String :=
  match x with
  | none => y
  | some s => if s = "" then y else s

/-- Python `x or y` where both operands are optional strings. -/
def pyOptOr (x y : Option String) : Option String :=
  match x with
  | none => y
  | some s => if s = "" then y else some s

/-- `BadRequestError(name, message=None)`: stores `name` and sets
`self.message = message or "The request was not valid"` at construction. -/
structure BadRequestError where
  name : String
  message : String
deriving DecidableEq

def BadRequestError.make (name : String) (message : Option String) : BadRequestError :=
  { name := name, message := pyStrOr message "The request was not valid" }

/-- `BadParameterError(name, message=None)`: forwards
`message or "The request parameter ... was not valid"` to `BadRequestError`. -/
def BadParameterError.make (name : String) (message : Option String) : BadRequestError :=
  BadRequestError.make name
    (some (pyStrOr message ("The request parameter " ++ name ++ " was not valid")))

/-- `BadDatasetError(dataset_name, message=None)`: forwards
`message or "The input dataset ... was not valid"` to `BadRequestError`. -/
def BadDatasetError.make (dataset_name : String) (message : Option String) : BadRequestError :=
  BadRequestError.make dataset_name
    (some (pyStrOr message ("The input dataset " ++ dataset_name ++ " was not valid")))

/-- `DatasetFieldError(dataset_name, field_name, message=None)`: adds the
`field_name` identity field on top of `BadDatasetError`. -/
structure DatasetFieldError where
  toBadRequestError : BadRequestError
  field_name : String
deriving DecidableEq

def DatasetFieldError.make (dataset_name field_name : String) (message : Option String) :
    DatasetFieldError :=
  { toBadRequestError :=
      BadDatasetError.make dataset_name
        (some (pyStrOr message
          ("The field " ++ field_name ++ " was not valid for input dataset " ++ dataset_name))),
    field_name := field_name }

def DatasetFieldError.message (e : DatasetFieldError) : String :=
  e.toBadRequestError.message

/-- `MissingDatasetFieldError(dataset_name, field_name, message=None)`: forwards
`message or "The field ... on input dataset ... is required but could not be
found!"` to `DatasetFieldError`. -/
def MissingDatasetFieldError.make (dataset_name field_name : String) (message : Option String) :
    DatasetFieldError :=
  DatasetFieldError.make dataset_name field_name
    (some (pyStrOr message
      ("The field " ++ field_name ++ " on input dataset " ++ dataset_name ++
        " is required but could not be found!")))

theorem str_append_ne_empty (s t : String) (h : s ≠ "") : s ++ t ≠ "" := by
  intro he
  apply h
  have hd : s.data ++ t.data = [] := by
    have hc := congrArg String.data he
    simpa [String.data_append] using hc
  have hs : s.data = [] := by
    cases hsd : s.data with
    | nil => rfl
    | cons a l => rw [hsd] at hd; simp at hd
  exact String.ext hs

theorem pyStrOr_some_of_ne (s y : String) (h : s ≠ "") : pyStrOr (some s) y = s := by
  simp [pyStrOr, h]

/-- C8: constructing any error of the taxonomy with no message supplied sets its
message, at construction time, to the documented default pattern of its class;
in particular the two concrete instances of the specification hold. -/
theorem C8_default_messages (n d f : String) :
    (BadRequestError.make n none).message = "The request was not valid" ∧
    (BadParameterError.make n none).message = "The request parameter " ++ n ++ " was not valid" ∧
    (BadDatasetError.make d none).message = "The input dataset " ++ d ++ " was not valid" ∧
    (DatasetFieldError.make d f none).message =
      "The field " ++ f ++ " was not valid for input dataset " ++ d ∧
    (MissingDatasetFieldError.make d f none).message =
      "The field " ++ f ++ " on input dataset " ++ d ++ " is required but could not be found!" ∧
    (BadDatasetError.make "customers" none).message =
      "The input dataset customers was not valid" ∧
    (MissingDatasetFieldError.make "orders" "id" none).message =
      "The field id on input dataset orders is required but could not be found!" := by
  refine ⟨rfl, ?_, ?_, ?_, ?_, by decide, by decide⟩
  · have h1 : "The request parameter " ++ n ++ " was not valid" ≠ "" :=
      str_append_ne_empty _ _ (str_append_ne_empty _ _ (by decide))
    simp [BadParameterError.make, BadRequestError.make, pyStrOr, h1]
  · have h1 : "The input dataset " ++ d ++ " was not valid" ≠ "" :=
      str_append_ne_empty _ _ (str_append_ne_empty _ _ (by decide))
    simp [BadDatasetError.make, BadRequestError.make, pyStrOr, h1]
  · have h1 : "The field " ++ f ++ " was not valid for input dataset " ++ d ≠ "" :=
      str_append_ne_empty _ _ (str_append_ne_empty _ _ (str_append_ne_empty _ _ (by decide)))
    simp [DatasetFieldError.make, DatasetFieldError.message, BadDatasetError.make,
      BadRequestError.make, pyStrOr, h1]
  · have h1 :
        "The field " ++ f ++ " on input dataset " ++ d ++ " is required but could not be found!" ≠ "" :=
      str_append_ne_empty _ _
        (str_append_ne_empty _ _ (str_append_ne_empty _ _ (str_append_ne_empty _ _ (by decide))))
    simp [MissingDatasetFieldError.make, DatasetFieldError.make, DatasetFieldError.message,
      BadDatasetError.make, BadRequestError.make, pyStrOr, h1]

/-- C9 counterexample: a supplied message can be the non-null empty string, and
then it is not used verbatim: the Python `or` is a truthiness test, so the
defaulted message replaces it. -/
theorem C9_counterexample :
    (BadRequestError.make "x" (some "")).message = "The request was not valid" ∧
    (BadRequestError.make "x" (some "")).message ≠ "" := by
  constructor
  · rfl
  · decide

/-- C9 (amended): for every supplied non-null and non-empty message string,
construction never fails and the constructed error's message equals the
supplied string verbatim, for every class of the taxonomy. -/
theorem C9_message_verbatim (msg : String) (h : msg ≠ "") (n d f : String) :
    (BadRequestError.make n (some msg)).message = msg ∧
    (BadParameterError.make n (some msg)).message = msg ∧
    (BadDatasetError.make d (some msg)).message = msg ∧
    (DatasetFieldError.make d f (some msg)).message = msg ∧
    (MissingDatasetFieldError.make d f (some msg)).message = msg := by
  simp [BadRequestError.make, BadParameterError.make, BadDatasetError.make,
    DatasetFieldError.make, MissingDatasetFieldError.make, DatasetFieldError.message,
    pyStrOr_some_of_ne _ _ h]

/-- C9 witness: the amended statement evaluated at msg equal to custom. -/
theorem C9_message_verbatim_witness :
    ("custom" : String) ≠ "" ∧ (BadRequestError.make "x" (some "custom")).message = "custom" :=
  ⟨by decide, (C9_message_verbatim "custom" (by decide) "x" "d" "f").1⟩

/-- Modelled from the spec: `context_sources.NameValidator` is not among the
provided sources; per the Name Validator section it raises a naming-violation
error exactly when the name does not match the canonical identifier form. The
form itself is left abstract as a boolean predicate. -/
structure NameValidator where
  isValid : String → Bool

/-- Errors surfaced by parameter lookup: the naming-violation error of the
Name Validator and `errors.MissingParameterError(name)`. -/
inductive ContextError where
  | nameViolation (name : String)
  | missingParameter (name : String)
deriving DecidableEq

/-- The parameters section of a parsed `ServiceConfiguration`
(`config.parameters()`), as consumed by `server.py`: plain values and
real-path values looked up by name. The `configuration` module is not among
the provided sources, so the two accessors are kept abstract. -/
structure ServiceParameters where
  get_value : String → Option String
  get_real_path_value : String → Option String

/-- `_ServiceConfigurationServiceContextSource.get_parameter_value`: runs
`NameValidator.raise_if_invalid(name)`, computes
`val = self.__parameters.get_value(name) or default`, raises
`MissingParameterError(name)` when `required` holds and `val is None`, and
otherwise returns `val`. -/
def ServiceConfigurationServiceContextSource.get_parameter_value (nv : NameValidator)
    (ps : ServiceParameters) (name : String) (required : Bool)
    (default : Option String) : Except ContextError (Option String) :=
  if nv.isValid name then
    let val := pyOptOr (ps.get_value name) default
    if required && val.isNone then Except.error (ContextError.missingParameter name)
    else Except.ok val
  else Except.error (ContextError.nameViolation name)

/-- `_ServiceConfigurationServiceContextSource.get_parameter_real_path_value`:
runs the validator, reads `get_real_path_value(name)`, raises
`MissingParameterError(name)` when `required` holds and the value is null, and
otherwise returns the value (there is no caller-supplied default here). -/
def ServiceConfigurationServiceContextSource.get_parameter_real_path_value (nv : NameValidator)
    (ps : ServiceParameters) (name : String) (required : Bool) :
    Except ContextError (Option String) :=
  if nv.isValid name then
    let val := ps.get_real_path_value name
    if required && val.isNone then Except.error (ContextError.missingParameter name)
    else Except.ok val
  else Except.error (ContextError.nameViolation name)

/-- A validator accepting every name, used to exercise the lookup paths. -/
def nvAccepting : NameValidator := { isValid := fun _ => true }

/-- A validator rejecting every name. -/
def nvRejecting : NameValidator := { isValid := fun _ => false }

/-- A parameters section whose stored value for foo is the empty string. -/
def psEmptyFoo : ServiceParameters :=
  { get_value := fun n => if n = "foo" then some "" else none,
    get_real_path_value := fun _ => none }

/-- A parameters section with no values at all. -/
def psNone : ServiceParameters :=
  { get_value := fun _ => none, get_real_path_value := fun _ => none }

/-- C6 counterexample: the configuration stores the non-null value empty-string
for foo, yet the source returns the caller's default instead of that value,
and under `required` with no default it raises `MissingParameterError` even
though the configuration value is non-null — the Python `or` tests truthiness,
not nullness. -/
theorem C6_counterexample :
    psEmptyFoo.get_value "foo" = some "" ∧
    ServiceConfigurationServiceContextSource.get_parameter_value nvAccepting psEmptyFoo
      "foo" false (some "fallback") = Except.ok (some "fallback") ∧
    ServiceConfigurationServiceContextSource.get_parameter_value nvAccepting psEmptyFoo
      "foo" true none = Except.error (ContextError.missingParameter "foo") := by
  refine ⟨rfl, rfl, rfl⟩

/-- C6 (amended): for every name the validator accepts, `get_parameter_value`
returns the configuration's value when it is non-null and non-empty, otherwise
the caller's default; and it raises `MissingParameterError` carrying exactly
that name if and only if `required` is true, the configuration value is null
or empty, and the default is null. -/
theorem C6_get_parameter_value_spec (nv : NameValidator) (ps : ServiceParameters)
    (name : String) (required : Bool) (default : Option String)
    (hv : nv.isValid name = true) :
    (∀ s, ps.get_value name = some s → s ≠ "" →
      ServiceConfigurationServiceContextSource.get_parameter_value nv ps name required default
        = Except.ok (some s)) ∧
    ((ps.get_value name = none ∨ ps.get_value name = some "") →
      ServiceConfigurationServiceContextSource.get_parameter_value nv ps name required default
        = if required && default.isNone then Except.error (ContextError.missingParameter name)
          else Except.ok default) ∧
    (ServiceConfigurationServiceContextSource.get_parameter_value nv ps name required default
        = Except.error (ContextError.missingParameter name)
      ↔ required = true ∧ (ps.get_value name = none ∨ ps.get_value name = some "") ∧
          default = none) := by
  unfold ServiceConfigurationServiceContextSource.get_parameter_value
  rw [hv]
  simp only [if_true]
  refine ⟨?_, ?_, ?_⟩
  · intro s hs hne
    simp [pyOptOr, hs, hne]
  · intro h
    rcases h with h | h
    · simp [pyOptOr, h]
    · simp only [pyOptOr, h]
      cases default <;> cases required <;> simp
  · cases hval : ps.get_value name with
    | none => cases default <;> cases required <;> simp [pyOptOr]
    | some s =>
      by_cases hse : s = ""
      · subst hse
        cases default <;> cases required <;> simp [pyOptOr]
      · cases default <;> cases required <;> simp [pyOptOr, hse]

/-- C6 witness: the amended statement evaluated on an empty configuration with
a non-required lookup that falls back to the default. -/
theorem C6_get_parameter_value_spec_witness :
    nvAccepting.isValid "foo" = true ∧
    ServiceConfigurationServiceContextSource.get_parameter_value nvAccepting psNone
      "foo" false (some "fallback") = Except.ok (some "fallback") := by
  refine ⟨rfl, ?_⟩
  have h := (C6_get_parameter_value_spec nvAccepting psNone "foo" false (some "fallback") rfl).2.1
    (Or.inl rfl)
  simpa using h

/-- C7: both lookup operations of the configuration context source run the Name
Validator before reading the parameter store: when the name fails validation,
each returns the naming-violation error, and the result is identical for every
parameter store — the store is never consulted, so a malformed name never
resolves to null or to a value. -/
theorem C7_validator_guards_lookup (nv : NameValidator) (ps ps' : ServiceParameters)
    (name : String) (required : Bool) (default : Option String)
    (h : nv.isValid name = false) :
    ServiceConfigurationServiceContextSource.get_parameter_value nv ps name required default
      = Except.error (ContextError.nameViolation name) ∧
    ServiceConfigurationServiceContextSource.get_parameter_real_path_value nv ps name required
      = Except.error (ContextError.nameViolation name) ∧
    ServiceConfigurationServiceContextSource.get_parameter_value nv ps name required default
      = ServiceConfigurationServiceContextSource.get_parameter_value nv ps' name required default ∧
    ServiceConfigurationServiceContextSource.get_parameter_real_path_value nv ps name required
      = ServiceConfigurationServiceContextSource.get_parameter_real_path_value nv ps' name
          required := by
  unfold ServiceConfigurationServiceContextSource.get_parameter_value
    ServiceConfigurationServiceContextSource.get_parameter_real_path_value
  rw [h]
  simp

/-- C7 witness: the guard evaluated on a rejecting validator, for a store that
does hold a value for the name. -/
theorem C7_validator_guards_lookup_witness :
    nvRejecting.isValid "foo" = false ∧
    ServiceConfigurationServiceContextSource.get_parameter_value nvRejecting psEmptyFoo
      "foo" true none = Except.error (ContextError.nameViolation "foo") :=
  ⟨rfl, (C7_validator_guards_lookup nvRejecting psEmptyFoo psNone "foo" true none rfl).1⟩

/-- A snapshot of the process environment, read by the environment-variable
source. -/
structure Environment where
  get : String → Option String

/-- Modelled from the spec: the member providers of the `context_sources`
module, which is not among the provided sources. The dict source wraps a
literal name-to-value map read directly; the environment-variable source is
constructed with a name prefix and looks the prefixed name up in the process
environment; the configuration source is the `server.py` adapter over the
parameters section. -/
inductive ServiceContextSource where
  | dict (entries : List (String × String))
  | environmentVariable (pfx : String)
  | serviceConfiguration (params : ServiceParameters)

/-- Modelled from the spec: the value one member contributes when the
coalescing source queries it. The configuration member reads through the
`server.py` adapter, whose Python `or` makes an empty stored value read as
null. -/
def ServiceContextSource.lookup (env : Environment) :
    ServiceContextSource → String → Option String
  | ServiceContextSource.dict entries, name => List.lookup name entries
  | ServiceContextSource.environmentVariable pfx, name => env.get (pfx ++ name)
  | ServiceContextSource.serviceConfiguration params, name =>
      pyOptOr (params.get_value name) none

/-- Modelled from the spec: `CoalescingServiceContextSource` holds an ordered
sequence of member sources. -/
structure CoalescingServiceContextSource where
  parts : List ServiceContextSource

/-- Modelled from the spec: the coalescing lookup validates the name once,
queries the members strictly in order taking the first non-null result, falls
back to `default` when all members return null, and when the result is still
null under `required` raises `MissingParameterError(name)`. -/
def CoalescingServiceContextSource.get_parameter_value (nv : NameValidator)
    (env : Environment) (c : CoalescingServiceContextSource) (name : String)
    (required : Bool) (default : Option String) : Except ContextError (Option String) :=
  if nv.isValid name then
    let found := c.parts.findSome? (fun p => ServiceContextSource.lookup env p name)
    let val := match found with
      | some v => some v
      | none => default
    if required && val.isNone then Except.error (ContextError.missingParameter name)
    else Except.ok val
  else Except.error (ContextError.nameViolation name)

/-- The pieces of `ServiceConfiguration` that
`ServerInstance.build_load_context_source` consults: whether a parameters
section was declared, and the section itself. The `configuration` module is
not among the provided sources, so both are kept abstract. -/
structure ServiceConfiguration where
  has_parameters : Bool
  params : ServiceParameters

/-- `ServerInstance.build_load_context_source(include_environment_variables=True,
override=None)`: appends to `context_parts`, in order, the dict source over
`override` when one is supplied, the environment source with prefix SERVICE_
when enabled, and the configuration source when the configuration declares
parameters, and wraps the list in a coalescing source. -/
def ServerInstance.build_load_context_source (config : ServiceConfiguration)
    (include_environment_variables : Bool)
    (override : Option (List (String × String))) : CoalescingServiceContextSource :=
  let context_parts : List ServiceContextSource :=
    match override with
    | some o => [ServiceContextSource.dict o]
    | none => []
  let context_parts := context_parts ++
    (if include_environment_variables
      then [ServiceContextSource.environmentVariable "SERVICE_"] else [])
  let context_parts := context_parts ++
    (if config.has_parameters
      then [ServiceContextSource.serviceConfiguration config.params] else [])
  { parts := context_parts }

/-- C5: the ordered member list of the built coalescing source is exactly the
override dict source when supplied, then the environment source with prefix
SERVICE_ when enabled, then the configuration source when the configuration
declares parameters; consequently an override value wins over an environment
value, which wins over a configuration value. -/
theorem C5_build_load_context_source (config : ServiceConfiguration)
    (include_environment_variables : Bool) (override : Option (List (String × String)))
    (nv : NameValidator) (env : Environment) (name : String) (required : Bool)
    (default : Option String) (hv : nv.isValid name = true) :
    ((ServerInstance.build_load_context_source config include_environment_variables
        override).parts =
      (match override with
        | some o => [ServiceContextSource.dict o]
        | none => []) ++
      (if include_environment_variables
        then [ServiceContextSource.environmentVariable "SERVICE_"] else []) ++
      (if config.has_parameters
        then [ServiceContextSource.serviceConfiguration config.params] else [])) ∧
    (∀ o v, override = some o → List.lookup name o = some v →
      CoalescingServiceContextSource.get_parameter_value nv env
        (ServerInstance.build_load_context_source config include_environment_variables override)
        name required default = Except.ok (some v)) ∧
    (∀ v, (∀ o, override = some o → List.lookup name o = none) →
      include_environment_variables = true → env.get ("SERVICE_" ++ name) = some v →
      CoalescingServiceContextSource.get_parameter_value nv env
        (ServerInstance.build_load_context_source config include_environment_variables override)
        name required default = Except.ok (some v)) ∧
    (∀ v, (∀ o, override = some o → List.lookup name o = none) →
      (include_environment_variables = true → env.get ("SERVICE_" ++ name) = none) →
      config.has_parameters = true → config.params.get_value name = some v → v ≠ "" →
      CoalescingServiceContextSource.get_parameter_value nv env
        (ServerInstance.build_load_context_source config include_environment_variables override)
        name required default = Except.ok (some v)) := by
  refine ⟨?_, ?_, ?_, ?_⟩
  · cases override <;>
      simp [ServerInstance.build_load_context_source]
  · intro o v ho hl
    subst ho
    simp [ServerInstance.build_load_context_source,
      CoalescingServiceContextSource.get_parameter_value, hv, List.findSome?_append,
      List.findSome?_cons, ServiceContextSource.lookup, hl]
  · intro v hmiss hinc henv
    subst hinc
    cases ho : override with
    | none =>
      simp [ServerInstance.build_load_context_source,
        CoalescingServiceContextSource.get_parameter_value, hv, List.findSome?_append,
        List.findSome?_cons, ServiceContextSource.lookup, henv]
    | some o =>
      have hl := hmiss o ho
      simp [ServerInstance.build_load_context_source,
        CoalescingServiceContextSource.get_parameter_value, hv, List.findSome?_append,
        List.findSome?_cons, ServiceContextSource.lookup, hl, henv]
  · intro v hmiss henv hhas hval hne
    have hcfg : pyOptOr (config.params.get_value name) none = some v := by
      simp [pyOptOr, hval, hne]
    cases ho : override with
    | none =>
      cases hie : include_environment_variables with
      | false =>
        simp [ServerInstance.build_load_context_source,
          CoalescingServiceContextSource.get_parameter_value, hv, List.findSome?_append,
          List.findSome?_cons, ServiceContextSource.lookup, hhas, hcfg]
      | true =>
        have he := henv hie
        simp [ServerInstance.build_load_context_source,
          CoalescingServiceContextSource.get_parameter_value, hv, List.findSome?_append,
          List.findSome?_cons, ServiceContextSource.lookup, hhas, hcfg, he]
    | some o =>
      have hl := hmiss o ho
      cases hie : include_environment_variables with
      | false =>
        simp [ServerInstance.build_load_context_source,
          CoalescingServiceContextSource.get_parameter_value, hv, List.findSome?_append,
          List.findSome?_cons, ServiceContextSource.lookup, hl, hhas, hcfg]
      | true =>
        have he := henv hie
        simp [ServerInstance.build_load_context_source,
          CoalescingServiceContextSource.get_parameter_value, hv, List.findSome?_append,
          List.findSome?_cons, ServiceContextSource.lookup, hl, hhas, hcfg, he]

/-- A configuration declaring the single parameter foo with value bar. -/
def configFooBar : ServiceConfiguration :=
  { has_parameters := true,
    params :=
      { get_value := fun n => if n = "foo" then some "bar" else none,
        get_real_path_value := fun _ => none } }

/-- An environment snapshot where SERVICE_foo is set to qux. -/
def envServiceFooQux : Environment :=
  { get := fun n => if n = "SERVICE_foo" then some "qux" else none }

/-- C5 witness: with override foo-to-baz, environment SERVICE_foo-to-qux and
configuration foo-to-bar, resolution returns baz — the override wins. -/
theorem C5_build_load_context_source_witness :
    nvAccepting.isValid "foo" = true ∧
    CoalescingServiceContextSource.get_parameter_value nvAccepting envServiceFooQux
      (ServerInstance.build_load_context_source configFooBar true (some [("foo", "baz")]))
      "foo" true none = Except.ok (some "baz") :=
  ⟨rfl,
    (C5_build_load_context_source configFooBar true (some [("foo", "baz")]) nvAccepting
        envServiceFooQux "foo" true none rfl).2.1
      [("foo", "baz")] "baz" rfl (by decide)⟩

/-- The capability set of the externally supplied service object: whether the
optional `load` and `dispose` attributes exist (`process` is read directly off
the object by the wrapper). -/
structure Service where
  has_load : Bool
  has_dispose : Bool
deriving DecidableEq

/-- Counts how many times each service operation's body has actually
executed. -/
structure ServiceTrace where
  load_runs : Nat
  process_runs : Nat
  dispose_runs : Nat
deriving DecidableEq

def ServiceTrace.initial : ServiceTrace :=
  { load_runs := 0, process_runs := 0, dispose_runs := 0 }

inductive ServiceOp where
  | load
  | process
  | dispose
deriving DecidableEq

/-- A Python coroutine object over the service trace: calling an `async def`
builds one of these, and its body runs only if it is awaited. -/
def PyCoroutine : Type := ServiceTrace → ServiceTrace

/-- The effect of one service operation's body actually running. -/
def ServiceOp.run : ServiceOp → ServiceTrace → ServiceTrace
  | ServiceOp.load, tr => { tr with load_runs := tr.load_runs + 1 }
  | ServiceOp.process, tr => { tr with process_runs := tr.process_runs + 1 }
  | ServiceOp.dispose, tr => { tr with dispose_runs := tr.dispose_runs + 1 }

/-- Attribute probe on the wrapped object (`getattr` and `hasattr`). -/
def Service.hasAttr (svc : Service) : ServiceOp → Bool
  | ServiceOp.load => svc.has_load
  | ServiceOp.process => true
  | ServiceOp.dispose => svc.has_dispose

/-- `SafeServiceWrapper.__init__`: stores the service and sets
`self._is_loaded = False`. -/
structure SafeServiceWrapper where
  service : Service
  is_loaded : Bool
deriving DecidableEq

def SafeServiceWrapper.make (service : Service) : SafeServiceWrapper :=
  { service := service, is_loaded := false }

/-- Body of `_call_maybe_coroutine(func, ...)`: calls `func` and, when the
result is a coroutine, awaits it — either way, once this body has run the
operation has executed exactly once. Being `async def`, the call itself only
builds this coroutine; the body runs when it is awaited. -/
def SafeServiceWrapper.call_maybe_coroutine (op : ServiceOp) : PyCoroutine :=
  fun tr => ServiceOp.run op tr

/-- Body of `_try_call_maybe_coroutine(inst, func_name, ...)`: reads the
attribute with `getattr`, returns with no effect when it is absent, and
otherwise awaits `_call_maybe_coroutine` on it. Again the call itself only
builds this coroutine. -/
def SafeServiceWrapper.try_call_maybe_coroutine (svc : Service) (op : ServiceOp) : PyCoroutine :=
  fun tr => if svc.hasAttr op then ServiceOp.run op tr else tr

def SafeServiceWrapper.has_load (w : SafeServiceWrapper) : Bool :=
  w.service.has_load

/-- Body of `SafeServiceWrapper.load(ctx)`, the part that runs when a caller
awaits it: the statement `self._try_call_maybe_coroutine(self._service, 'load',
ctx)` carries no `await`, so the coroutine it builds is discarded with its body
never executed (CPython never runs an un-awaited coroutine's body); then
`self._is_loaded = True` takes effect. -/
def SafeServiceWrapper.load (w : SafeServiceWrapper) (tr : ServiceTrace) :
    SafeServiceWrapper × ServiceTrace :=
  let _unawaited : PyCoroutine :=
    SafeServiceWrapper.try_call_maybe_coroutine w.service ServiceOp.load
  ({ w with is_loaded := true }, tr)

def load_guard_message : String := "Be sure to call load before process!"

/-- Body of `SafeServiceWrapper.process(ctx)`: the state guard raises
`ValueError` when the wrapper is not loaded and the service has a `load`
attribute; past the guard, `self._call_maybe_coroutine(self._service.process,
ctx)` again carries no `await`, so the coroutine it builds is discarded with
its body never executed. -/
def SafeServiceWrapper.process (w : SafeServiceWrapper) (tr : ServiceTrace) :
    Except String (SafeServiceWrapper × ServiceTrace) :=
  if !w.is_loaded && w.has_load then Except.error load_guard_message
  else
    let _unawaited : PyCoroutine := SafeServiceWrapper.call_maybe_coroutine ServiceOp.process
    Except.ok (w, tr)

/-- `SafeServiceWrapper.dispose()`: `self._try_call_maybe_coroutine(self._service,
'dispose')` carries no `await`, so the coroutine it builds is discarded with
its body never executed; the method changes nothing. -/
def SafeServiceWrapper.dispose (w : SafeServiceWrapper) (tr : ServiceTrace) :
    SafeServiceWrapper × ServiceTrace :=
  let _unawaited : PyCoroutine :=
    SafeServiceWrapper.try_call_maybe_coroutine w.service ServiceOp.dispose
  (w, tr)

/-- A service exposing only a load attribute. -/
def svcLoadOnly : Service := { has_load := true, has_dispose := false }

/-- A service exposing neither optional attribute. -/
def svcPlain : Service := { has_load := false, has_dispose := false }

/-- A service exposing only a dispose attribute. -/
def svcDisposeOnly : Service := { has_load := false, has_dispose := true }

/-- C1: against the code this fails — awaiting the wrapper's `load` on a
service that declares a `load` capability transitions the wrapper to Loaded
and returns while the service's `load` body has executed zero times; the
coroutine the un-awaited inner call builds would have executed it once. -/
theorem C1_load_body_never_runs :
    ((SafeServiceWrapper.make svcLoadOnly).load ServiceTrace.initial).1.is_loaded = true ∧
    ((SafeServiceWrapper.make svcLoadOnly).load ServiceTrace.initial).2.load_runs = 0 ∧
    (SafeServiceWrapper.try_call_maybe_coroutine svcLoadOnly ServiceOp.load
      ServiceTrace.initial).load_runs = 1 := by
  refine ⟨rfl, rfl, rfl⟩

/-- C2: against the code this fails — on a Loaded wrapper, awaiting `process`
returns successfully while the service's `process` body has executed zero
times and no result of it is produced; the coroutine the un-awaited call
builds would have executed it once. -/
theorem C2_process_body_never_runs :
    SafeServiceWrapper.process ((SafeServiceWrapper.make svcLoadOnly).load
        ServiceTrace.initial).1 ServiceTrace.initial
      = Except.ok (((SafeServiceWrapper.make svcLoadOnly).load ServiceTrace.initial).1,
          ServiceTrace.initial) ∧
    ServiceTrace.initial.process_runs = 0 ∧
    (SafeServiceWrapper.call_maybe_coroutine ServiceOp.process
      ServiceTrace.initial).process_runs = 1 := by
  refine ⟨rfl, rfl, rfl⟩

/-- C3: `process` raises the invalid-state error exactly when the service
declares a `load` capability and the wrapper is not Loaded; a service without
the capability processes successfully with no prior load, and after an awaited
`load` the guard no longer fires. -/
theorem C3_process_state_guard (w : SafeServiceWrapper) (tr tr' : ServiceTrace) :
    (SafeServiceWrapper.process w tr = Except.error load_guard_message
      ↔ w.service.has_load = true ∧ w.is_loaded = false) ∧
    (w.service.has_load = false →
      SafeServiceWrapper.process (SafeServiceWrapper.make w.service) tr
        = Except.ok (SafeServiceWrapper.make w.service, tr)) ∧
    SafeServiceWrapper.process ((SafeServiceWrapper.make w.service).load tr').1 tr
      ≠ Except.error load_guard_message := by
  refine ⟨?_, ?_, ?_⟩
  · unfold SafeServiceWrapper.process SafeServiceWrapper.has_load
    cases hl : w.service.has_load <;> cases hld : w.is_loaded <;> simp [hl, hld]
  · intro h
    simp [SafeServiceWrapper.process, SafeServiceWrapper.make, SafeServiceWrapper.has_load, h]
  · simp [SafeServiceWrapper.process, SafeServiceWrapper.make, SafeServiceWrapper.load]

/-- C3 witness: a capability-free service processes successfully without any
prior load. -/
theorem C3_process_state_guard_witness :
    SafeServiceWrapper.process (SafeServiceWrapper.make svcPlain) ServiceTrace.initial
      = Except.ok (SafeServiceWrapper.make svcPlain, ServiceTrace.initial) :=
  (C3_process_state_guard (SafeServiceWrapper.make svcPlain) ServiceTrace.initial
    ServiceTrace.initial).2.1 rfl

/-- C4: against the code this fails — calling `dispose` on a wrapper whose
service declares a `dispose` capability leaves the service's `dispose` body
executed zero times (so nothing can fail, but nothing is invoked either); the
coroutine the un-awaited call builds would have executed it once. -/
theorem C4_dispose_body_never_runs :
    ((SafeServiceWrapper.make svcDisposeOnly).dispose ServiceTrace.initial).2.dispose_runs = 0 ∧
    (SafeServiceWrapper.try_call_maybe_coroutine svcDisposeOnly ServiceOp.dispose
      ServiceTrace.initial).dispose_runs = 1 := by
  refine ⟨rfl, rfl⟩

/-- C10: the loaded flag starts false, `load` is the only operation that
changes it (to true), and `process` and `dispose` return the wrapper
unchanged — once Loaded the wrapper never leaves Loaded, no distinct Disposed
state exists, and `process` after `dispose` faces the very same guard. -/
theorem C10_loaded_flag_monotone (svc : Service) (w : SafeServiceWrapper) (tr : ServiceTrace) :
    (SafeServiceWrapper.make svc).is_loaded = false ∧
    (SafeServiceWrapper.load w tr).1.is_loaded = true ∧
    (SafeServiceWrapper.process w tr = Except.error load_guard_message ∨
      SafeServiceWrapper.process w tr = Except.ok (w, tr)) ∧
    SafeServiceWrapper.dispose w tr = (w, tr) := by
  refine ⟨rfl, rfl, ?_, rfl⟩
  unfold SafeServiceWrapper.process
  by_cases h : (!w.is_loaded && w.has_load) = true
  · rw [if_pos h]; exact Or.inl rfl
  · rw [if_neg h]; exact Or.inr rfl
